import Mathlib

/-!
Verification of the `BaseProtocol` dispatcher of `asyncpg/protocol/protocol.pyx`.

The dispatcher couples at most one pending caller (a *waiter*, an asyncio
future) to the protocol engine's next terminal event, and owns the timeout and
cancellation orchestration.  We embed its state as an explicit record:
asyncio futures are modelled by a store `futs : Nat → FutState` indexed by
creation order, transport/engine side effects are recorded as trace events,
and each Python method becomes a Lean function from state to
state/trace/outcome.  Python exceptions are `Except PyErr`; Python floats are
modelled as rationals.

Code that the dispatcher calls but that lives outside `protocol.pyx`
(`CoreProtocol` message senders, `PreparedStatementState`, codecs, the consts
file) is either treated as an opaque trace event or modelled from the spec;
such definitions carry a doc comment starting with `Modelled from the spec:`.
-/

namespace Asyncpg

/-- Python exceptions that the dispatcher code can raise or observe. -/
inductive PyErr where
  /-- `asyncpg.exceptions.InterfaceError` with its message. -/
  | interfaceError (msg : String)
  /-- `asyncio.TimeoutError` (equal to builtin `TimeoutError` on py3.8+). -/
  | timeoutError
  | valueError (msg : String)
  | typeError (msg : String)
  | runtimeError (msg : String)
  | attributeError
  | indexError
  /-- `asyncpg.exceptions.ConnectionDoesNotExistError`; `cause` is the
  transport error token attached as `__cause__`, when present. -/
  | connectionDoesNotExistError (cause : Option Nat)
  /-- an arbitrary transport-level exception, identified by a token. -/
  | transportError (t : Nat)
  /-- a server error built by `PostgresMessage.new` from the error field map,
  tagged with the last submitted query. -/
  | postgresError (query : Option String)
  | stopAsyncIteration
  | invalidStateError
  | cancelledError
  /-- an arbitrary user-code exception (sink, reader, codec), by token. -/
  | otherError (n : Nat)
  deriving DecidableEq, Repr

/-- `str(e)` for the modelled exceptions (used as the `CopyFail` reason). -/
def pyStr : PyErr → String
  | .interfaceError m => m
  | .timeoutError => ""
  | .valueError m => m
  | .typeError m => m
  | .runtimeError m => m
  | .attributeError => "attribute error"
  | .indexError => "list index out of range"
  | .connectionDoesNotExistError _ =>
      "connection was closed in the middle of operation"
  | .transportError t => "transport error " ++ toString t
  | .postgresError _ => "postgres error"
  | .stopAsyncIteration => ""
  | .invalidStateError => "invalid state"
  | .cancelledError => ""
  | .otherError n => "exception " ++ toString n

/-- Modelled from the spec: `PreparedStatementState` (defined in
`prepared_stmt.pyx`, not part of the analysed source) "holds the query text,
reference count, closed flag, and — once described — the parameter-OID vector
and row-descriptor".  Descriptors are opaque tokens. -/
structure Stmt where
  name : String
  query : String
  refs : Nat
  closed : Bool
  paramDesc : Option Nat
  rowDesc : Option Nat
  deriving DecidableEq, Repr

/-- Python values that can complete a waiter future. -/
inductive PyVal where
  | vNone
  | vBool (b : Bool)
  | vStr (s : String)
  | vStmt (st : Stmt)
  | vBytes (b : List Nat)
  /-- an error field map (a Python `dict`). -/
  | vDict (m : List (String × String))
  | vExc (e : PyErr)
  | vTuple3 (a b c : PyVal)
  deriving DecidableEq, Repr

/-- The state of an asyncio future. -/
inductive FutState where
  | pending
  | doneRes (v : PyVal)
  | doneExc (e : PyErr)
  | cancelled
  deriving DecidableEq, Repr

/-- `fut.done()`: true for completed and cancelled futures. -/
def futIsDone : FutState → Bool
  | .pending => false
  | _ => true

/-- The engine state enum (`PROTOCOL_*` constants). -/
inductive PState where
  | NOT_CONNECTED | AUTH | PREPARE | BIND_EXECUTE | BIND_EXECUTE_MANY
  | EXECUTE | BIND | CLOSE_STMT_PORTAL | SIMPLE_QUERY
  | COPY_OUT_DATA | COPY_OUT_DONE | COPY_IN_DATA
  | CANCELLED | TERMINATING | FAILED
  deriving DecidableEq, Repr

/-- The engine's `result_type` field: `RESULT_OK` or `RESULT_FAILED`. -/
inductive RType where
  | okType
  | failed
  deriving DecidableEq, Repr

/-- The engine's `result` field: an error field map (`dict`), an exception
object, or a plain result value. -/
inductive RVal where
  | dictMap (m : List (String × String))
  | excVal (e : PyErr)
  | plain (v : PyVal)
  deriving DecidableEq, Repr

/-- The Python value in result position, as handed to `set_result`. -/
def rvalVal : RVal → PyVal
  | .dictMap m => .vDict m
  | .excVal e => .vExc e
  | .plain v => v

/-- The value passed as a `timeout` argument: `None`, the `NO_TIMEOUT`
sentinel object, a number, or a Boolean. -/
inductive TimeoutVal where
  | tNone
  | noTimeout
  | num (q : ℚ)
  | boolean (b : Bool)
  deriving DecidableEq, Repr

/-- `float(x)` on a timeout argument: numbers pass through, Booleans coerce
(`True ↦ 1.0`, `False ↦ 0.0`), `None` and the plain-object sentinel raise
`TypeError`. -/
def pyFloat : TimeoutVal → Except PyErr ℚ
  | .num q => .ok q
  | .boolean b => .ok (if b then 1 else 0)
  | .tNone => .error (.typeError "float() argument must be a real number")
  | .noTimeout => .error (.typeError "float() argument must be a real number")

/-- Lines 561-563: `if timeout is not None and timeout <= 0: raise
TimeoutError()` followed by `return timeout`. -/
def posGuard : Option ℚ → Except PyErr (Option ℚ)
  | some q => if q ≤ 0 then .error .timeoutError else .ok (some q)
  | none => .ok none

/-- `BaseProtocol._get_timeout_impl` (lines 553-563).  `cmdTimeout` is
`connection._config.command_timeout`. -/
def _get_timeout_impl (cmdTimeout : Option ℚ) (t : TimeoutVal) :
    Except PyErr (Option ℚ) :=
  match t with
  | .tNone => posGuard cmdTimeout
  | .noTimeout => posGuard none
  | t =>
    match pyFloat t with
    | .error e => .error e
    | .ok q => posGuard (some q)

/-- `BaseProtocol._get_timeout` (lines 540-551): pre-validates a non-`None`
argument (`bool` raises, then `float(timeout)`; only `ValueError` is caught
and re-raised with the "invalid timeout value" message) and then delegates to
`_get_timeout_impl` with the coerced float. -/
def _get_timeout (cmdTimeout : Option ℚ) (t : TimeoutVal) :
    Except PyErr (Option ℚ) :=
  match t with
  | .tNone => _get_timeout_impl cmdTimeout .tNone
  | t =>
    match (match t with
           | .boolean _ => Except.error (PyErr.valueError "bool")
           | t => pyFloat t) with
    | .ok q => _get_timeout_impl cmdTimeout (.num q)
    | .error (.valueError _) =>
        -- the source appends the repr of the offending value to this message
        .error (.valueError "invalid timeout value: expected non-negative float")
    | .error e => .error e

/-- Observable side effects of the dispatcher: outbound protocol messages,
transport/timer calls, and suspension points. -/
inductive Ev where
  /-- the caller suspends awaiting future `f`. -/
  | awaitFut (f : Nat)
  /-- `_check_state` runs. -/
  | checkStateEv
  /-- `CoreProtocol._prepare(stmt_name, query)`: Parse/Describe/Sync. -/
  | prepareMsg (name q : String)
  /-- `CoreProtocol._bind_execute(portal, stmt, bound_msg, limit)`. -/
  | bindExecuteMsg (portal stmt : String) (enc : Nat) (limit : Int)
  /-- `CoreProtocol._bind_execute_many(portal, stmt, bind_iter)`. -/
  | bindExecuteManyMsg (portal stmt : String)
  /-- `CoreProtocol._bind(portal, stmt, bound_msg)`. -/
  | bindMsg (portal stmt : String) (enc : Nat)
  /-- `CoreProtocol._execute(portal, limit)`. -/
  | executeMsg (portal : String) (limit : Int)
  /-- `CoreProtocol._simple_query(query)`. -/
  | simpleQueryMsg (q : String)
  /-- `CoreProtocol._copy_out(copy_stmt)`. -/
  | copyOutMsg (q : String)
  /-- `CoreProtocol._copy_in(copy_stmt)`. -/
  | copyInMsg (q : String)
  /-- `CoreProtocol._close(name, is_portal)`. -/
  | closeMsg (name : String) (isPortal : Bool)
  /-- `CoreProtocol._terminate()`. -/
  | terminateMsg
  | transportAbort
  | transportPauseReading
  | transportResumeReading
  /-- `loop.call_later(t, self.timeout_callback, waiter)`. -/
  | callLater (t : ℚ) (f : Nat)
  /-- `waiter.add_done_callback(self.completed_callback)`. -/
  | addDoneCallback (f : Nat)
  /-- `timeout_handle.cancel()`. -/
  | timerCancel (h : Nat)
  /-- `connection._cancel_current_command(cancel_sent_waiter)`. -/
  | cancelCurrentCommand (f : Nat)
  /-- `await self.writing_allowed.wait()`. -/
  | awaitWritingAllowed
  /-- `CoreProtocol._write_copy_data_msg(buf)`. -/
  | copyDataMsg (payload : List Nat)
  /-- `CoreProtocol._write_copy_fail_msg(reason)`. -/
  | copyFailMsg (reason : String)
  /-- `CoreProtocol._write_copy_done_msg()`. -/
  | copyDoneMsg
  deriving DecidableEq, Repr

/-- The dispatcher state: the fields set in `BaseProtocol.__init__` plus the
engine-owned result fields that `_dispatch_result` consumes, plus the future
store. -/
structure ProtoState where
  waiter : Option Nat
  cancel_waiter : Option Nat
  cancel_sent_waiter : Option Nat
  statement : Option Stmt
  return_extra : Bool
  last_query : Option String
  closing : Bool
  is_reading : Bool
  writing_allowed : Bool
  timeout_handle : Option Nat
  queries_count : Nat
  /-- `connection._config.command_timeout`. -/
  cmdTimeout : Option ℚ
  /-- future store: state of each created future, by creation index. -/
  futs : Nat → FutState
  /-- next fresh future index (`create_future`). -/
  nextFut : Nat
  /-- next fresh timer-handle index (`loop.call_later`). -/
  nextHandle : Nat
  /-- the engine state (`CoreProtocol.state`). -/
  pstate : PState
  result_type : RType
  result : RVal
  result_status_msg : Option String
  result_execute_completed : Bool
  result_param_desc : Option Nat
  result_row_desc : Option Nat

/-- Update one slot of the future store. -/
def updFn (f : Nat → FutState) (i : Nat) (v : FutState) : Nat → FutState :=
  fun j => if j = i then v else f j

/-- Set a future's state. -/
def setFut (s : ProtoState) (i : Nat) (v : FutState) : ProtoState :=
  { s with futs := updFn s.futs i v }

/-- `loop.create_future()`: returns a fresh pending future and the new state. -/
def createFuture (s : ProtoState) : Nat × ProtoState :=
  (s.nextFut,
   { s with nextFut := s.nextFut + 1,
            futs := updFn s.futs s.nextFut .pending })

/-- `BaseProtocol._check_state` (lines 565-574): raise `InterfaceError` when a
cancel is in flight, the connection is closing, or a waiter or timeout handle
is already set. -/
def _check_state (s : ProtoState) : Except PyErr Unit :=
  if s.cancel_waiter.isSome then
    .error (.interfaceError
      "cannot perform operation: another operation is cancelling")
  else if s.closing then
    .error (.interfaceError "cannot perform operation: connection is closed")
  else if s.waiter.isSome || s.timeout_handle.isSome then
    .error (.interfaceError
      "cannot perform operation: another operation is in progress")
  else
    .ok ()

/-- The effect of the event loop while the caller is suspended in the two
cancel-drain awaits at the top of each public operation: `r1` runs during
`await self.cancel_waiter`, `r2` during `await self.cancel_sent_waiter`.
Quantifying over `Sched` makes theorems hold for every interleaving. -/
structure Sched where
  r1 : ProtoState → ProtoState
  r2 : ProtoState → ProtoState

/-- The scheduler under which nothing happens during the drain awaits. -/
def idSched : Sched := ⟨id, id⟩

/-- The cancel-drain prologue repeated verbatim at the top of every public
operation (e.g. lines 150-154): await `cancel_waiter` when set, then await
`cancel_sent_waiter` when set and clear it. -/
def drainCancel (sched : Sched) (s : ProtoState) : List Ev × ProtoState :=
  let p1 :=
    match s.cancel_waiter with
    | some f => ([Ev.awaitFut f], sched.r1 s)
    | none => ([], s)
  match p1.2.cancel_sent_waiter with
  | some f =>
      (p1.1 ++ [Ev.awaitFut f], { sched.r2 p1.2 with cancel_sent_waiter := none })
  | none => (p1.1, p1.2)

/-- Modelled from the spec: `CoreProtocol._set_state` (defined in
`coreproto.pyx`, not part of the analysed source) moves the engine to the
given state ("The engine is moved to `CANCELLED`"). -/
def setEngineState (s : ProtoState) (p : PState) : ProtoState :=
  { s with pstate := p }

/-- `BaseProtocol._request_cancel` (lines 501-505): create `cancel_waiter`
and `cancel_sent_waiter`, hand `cancel_sent_waiter` to the connection's
side-channel cancel callback, and move the engine to `PROTOCOL_CANCELLED`. -/
def _request_cancel (s : ProtoState) : ProtoState × List Ev :=
  let p1 := createFuture s
  let s1 := { p1.2 with cancel_waiter := some p1.1 }
  let p2 := createFuture s1
  let s2 := { p2.2 with cancel_sent_waiter := some p2.1 }
  (setEngineState s2 .CANCELLED, [Ev.cancelCurrentCommand p2.1])

/-- `BaseProtocol._on_timeout` (lines 507-513).  The guard is the negation of
the source's early-return disjunction `self.waiter is not fut or fut.done()
or self.cancel_waiter is not None or self.timeout_handle is None`. -/
def _on_timeout (s : ProtoState) (fut : Nat) : ProtoState × List Ev :=
  if s.waiter = some fut ∧ futIsDone (s.futs fut) = false ∧
      s.cancel_waiter = none ∧ s.timeout_handle.isSome then
    let p := _request_cancel s
    (setFut p.1 fut (.doneExc .timeoutError), p.2)
  else
    (s, [])

/-- `BaseProtocol._new_waiter` (lines 576-585): refuse when a waiter exists,
else create the waiter future, arm the one-shot timer when a timeout is set,
and register the done-callback. -/
def _new_waiter (s : ProtoState) (timeout : Option ℚ) :
    List Ev × Except PyErr (Nat × ProtoState) :=
  if s.waiter.isSome then
    ([], .error (.interfaceError
      "cannot perform operation: another operation is in progress"))
  else
    let p := createFuture s
    let s1 := { p.2 with waiter := some p.1 }
    let armed :=
      match timeout with
      | some t =>
          ([Ev.callLater t p.1],
           { s1 with timeout_handle := some s1.nextHandle,
                     nextHandle := s1.nextHandle + 1 })
      | none => ([], s1)
    (armed.1 ++ [Ev.addDoneCallback p.1], .ok (p.1, armed.2))

/-- Modelled from the spec: a codec's external contract (§4.6): `oid`,
`has_encoder()`, and `encode(settings, buf, value)`, which appends the
4-byte length (or -1 for NULL) and the value bytes; a failing encode raises.
Values are opaque tokens. -/
structure Codec where
  oid : Nat
  hasEncoder : Bool
  enc : Nat → Except PyErr (List Nat)

/-- The data source given to `copy_in`: exactly one of a record iterator with
its binary template statement's row codecs, an async byte-iterator (with a
flag for whether it has `__aiter__`, and each `__anext__` outcome), or a
plain buffer. -/
inductive CopyInput where
  | records (codecs : List Codec) (rows : List (List Nat))
  | reader (isAiter : Bool) (chunks : List (Except PyErr (List Nat)))
  | dataBuf (bytes : List Nat)

/-- A public operation call with its arguments.  For the bind-family
operations the result of `state._encode_bind_msg(args)` (computed by
`prepared_stmt.pyx`, outside the analysed source) is supplied as an
`Except`-valued input token. -/
inductive OpCall where
  | prepareOp (stmtName q : String) (t : TimeoutVal)
  | bindExecuteOp (st : Stmt) (encoded : Except PyErr Nat) (portal : String)
      (limit : Int) (returnExtra : Bool) (t : TimeoutVal)
  | bindExecuteManyOp (st : Stmt) (portal : String) (t : TimeoutVal)
  | bindOp (st : Stmt) (encoded : Except PyErr Nat) (portal : String)
      (t : TimeoutVal)
  | executeOp (st : Stmt) (portal : String) (limit : Int) (returnExtra : Bool)
      (t : TimeoutVal)
  | queryOp (q : String) (t : TimeoutVal)
  | copyOutOp (q : String) (t : TimeoutVal)
  | copyInOp (q : String) (input : CopyInput) (t : TimeoutVal)
  | closeStatementOp (st : Stmt) (t : TimeoutVal)

/-- Successful completion of an operation's entry phase: the operation has
created its waiter `fid` and is now suspended awaiting it.  `stmtOut` is the
(possibly mutated) prepared-statement argument for `close_statement`. -/
structure EntryOk where
  fid : Nat
  s : ProtoState
  stmtOut : Option Stmt

/-- The shared entry shape of every public operation: run the cancel-drain
prologue (inlined verbatim in each operation in the source), then
`_check_state`, then the operation-specific continuation `k`. -/
def withProlog (sched : Sched) (s : ProtoState)
    (k : ProtoState → List Ev × Except PyErr EntryOk) :
    List Ev × Except PyErr EntryOk :=
  let d := drainCancel sched s
  match _check_state d.2 with
  | .error e => (d.1 ++ [Ev.checkStateEv], .error e)
  | .ok _ =>
      let r := k d.2
      ((d.1 ++ [Ev.checkStateEv]) ++ r.1, r.2)

/-- Modelled from the spec: a statement handle freshly constructed by
`PreparedStatementState(stmt_name, query, self)`: no references, not closed,
descriptors not yet populated. -/
def freshStmt (name q : String) : Stmt :=
  ⟨name, q, 0, false, none, none⟩

/-- `BaseProtocol.prepare` (lines 149-163), up to the suspension on the new
waiter. -/
def prepare (sched : Sched) (s : ProtoState) (stmtName q : String)
    (t : TimeoutVal) : List Ev × Except PyErr EntryOk :=
  withProlog sched s fun s1 =>
    match _get_timeout_impl s1.cmdTimeout t with
    | .error e => ([], .error e)
    | .ok tq =>
      let s2 := { s1 with last_query := some q,
                          statement := some (freshStmt stmtName q) }
      let w := _new_waiter s2 tq
      match w.2 with
      | .error e => (Ev.prepareMsg stmtName q :: w.1, .error e)
      | .ok fw => (Ev.prepareMsg stmtName q :: w.1, .ok ⟨fw.1, fw.2, none⟩)

/-- `BaseProtocol.bind_execute` (lines 165-189), up to the suspension on the
new waiter.  `_encode_bind_msg(args)` is evaluated before the engine send. -/
def bind_execute (sched : Sched) (s : ProtoState) (st : Stmt)
    (encoded : Except PyErr Nat) (portal : String) (limit : Int)
    (returnExtra : Bool) (t : TimeoutVal) : List Ev × Except PyErr EntryOk :=
  withProlog sched s fun s1 =>
    match _get_timeout_impl s1.cmdTimeout t with
    | .error e => ([], .error e)
    | .ok tq =>
      match encoded with
      | .error e => ([], .error e)
      | .ok enc =>
        let s2 := { s1 with last_query := some st.query,
                            statement := some st,
                            return_extra := returnExtra,
                            queries_count := s1.queries_count + 1 }
        let w := _new_waiter s2 tq
        match w.2 with
        | .error e => (Ev.bindExecuteMsg portal st.name enc limit :: w.1, .error e)
        | .ok fw =>
            (Ev.bindExecuteMsg portal st.name enc limit :: w.1,
             .ok ⟨fw.1, fw.2, none⟩)

/-- `BaseProtocol.bind_execute_many` (lines 191-221): the waiter is created
*before* the engine send; the argument sequence is encoded lazily inside the
engine, so no encode happens in the entry. -/
def bind_execute_many (sched : Sched) (s : ProtoState) (st : Stmt)
    (portal : String) (t : TimeoutVal) : List Ev × Except PyErr EntryOk :=
  withProlog sched s fun s1 =>
    match _get_timeout_impl s1.cmdTimeout t with
    | .error e => ([], .error e)
    | .ok tq =>
      let w := _new_waiter s1 tq
      match w.2 with
      | .error e => (w.1, .error e)
      | .ok fw =>
        let s2 := { fw.2 with last_query := some st.query,
                              statement := some st,
                              return_extra := false,
                              queries_count := fw.2.queries_count + 1 }
        (w.1 ++ [Ev.bindExecuteManyMsg portal st.name], .ok ⟨fw.1, s2, none⟩)

/-- `BaseProtocol.bind` (lines 223-243), up to the suspension on the new
waiter. -/
def bind (sched : Sched) (s : ProtoState) (st : Stmt)
    (encoded : Except PyErr Nat) (portal : String) (t : TimeoutVal) :
    List Ev × Except PyErr EntryOk :=
  withProlog sched s fun s1 =>
    match _get_timeout_impl s1.cmdTimeout t with
    | .error e => ([], .error e)
    | .ok tq =>
      match encoded with
      | .error e => ([], .error e)
      | .ok enc =>
        let s2 := { s1 with last_query := some st.query, statement := some st }
        let w := _new_waiter s2 tq
        match w.2 with
        | .error e => (Ev.bindMsg portal st.name enc :: w.1, .error e)
        | .ok fw => (Ev.bindMsg portal st.name enc :: w.1, .ok ⟨fw.1, fw.2, none⟩)

/-- `BaseProtocol.execute` (lines 245-267), up to the suspension on the new
waiter. -/
def execute (sched : Sched) (s : ProtoState) (st : Stmt) (portal : String)
    (limit : Int) (returnExtra : Bool) (t : TimeoutVal) :
    List Ev × Except PyErr EntryOk :=
  withProlog sched s fun s1 =>
    match _get_timeout_impl s1.cmdTimeout t with
    | .error e => ([], .error e)
    | .ok tq =>
      let s2 := { s1 with last_query := some st.query,
                          statement := some st,
                          return_extra := returnExtra,
                          queries_count := s1.queries_count + 1 }
      let w := _new_waiter s2 tq
      match w.2 with
      | .error e => (Ev.executeMsg portal limit :: w.1, .error e)
      | .ok fw => (Ev.executeMsg portal limit :: w.1, .ok ⟨fw.1, fw.2, none⟩)

/-- `BaseProtocol.query` (lines 269-286): validates the timeout through
`_get_timeout` rather than `_get_timeout_impl`. -/
def query (sched : Sched) (s : ProtoState) (q : String) (t : TimeoutVal) :
    List Ev × Except PyErr EntryOk :=
  withProlog sched s fun s1 =>
    match _get_timeout s1.cmdTimeout t with
    | .error e => ([], .error e)
    | .ok tq =>
      let s2 := { s1 with last_query := some q,
                          queries_count := s1.queries_count + 1 }
      let w := _new_waiter s2 tq
      match w.2 with
      | .error e => (Ev.simpleQueryMsg q :: w.1, .error e)
      | .ok fw => (Ev.simpleQueryMsg q :: w.1, .ok ⟨fw.1, fw.2, none⟩)

/-- `BaseProtocol.copy_out` (lines 288-304), up to the engine send that
initiates the COPY; the waiter is created before the send. -/
def copy_out (sched : Sched) (s : ProtoState) (q : String) (t : TimeoutVal) :
    List Ev × Except PyErr EntryOk :=
  withProlog sched s fun s1 =>
    match _get_timeout_impl s1.cmdTimeout t with
    | .error e => ([], .error e)
    | .ok tq =>
      let w := _new_waiter s1 tq
      match w.2 with
      | .error e => (w.1, .error e)
      | .ok fw => (w.1 ++ [Ev.copyOutMsg q], .ok ⟨fw.1, fw.2, none⟩)

/-- `BaseProtocol.copy_in` (lines 339-360), up to the engine send that
initiates the COPY; the data-transfer phase is `copyInBody` below. -/
def copy_in_entry (sched : Sched) (s : ProtoState) (q : String)
    (t : TimeoutVal) : List Ev × Except PyErr EntryOk :=
  withProlog sched s fun s1 =>
    match _get_timeout_impl s1.cmdTimeout t with
    | .error e => ([], .error e)
    | .ok tq =>
      let w := _new_waiter s1 tq
      match w.2 with
      | .error e => (w.1, .error e)
      | .ok fw => (w.1 ++ [Ev.copyInMsg q], .ok ⟨fw.1, fw.2, none⟩)

/-- `BaseProtocol.close_statement` (lines 449-466): requires
`state.refs == 0`, else raises before sending anything; on success sends
Close, marks the statement closed and awaits the new waiter. -/
def close_statement (sched : Sched) (s : ProtoState) (st : Stmt)
    (t : TimeoutVal) : List Ev × Except PyErr EntryOk :=
  withProlog sched s fun s1 =>
    match _get_timeout_impl s1.cmdTimeout t with
    | .error e => ([], .error e)
    | .ok tq =>
      if st.refs ≠ 0 then
        ([], .error (.runtimeError
          ("cannot close prepared statement; refs == " ++ toString st.refs ++
           " != 0")))
      else
        let st1 := { st with closed := true }
        let w := _new_waiter s1 tq
        match w.2 with
        | .error e => (Ev.closeMsg st.name false :: w.1, .error e)
        | .ok fw => (Ev.closeMsg st.name false :: w.1, .ok ⟨fw.1, fw.2, some st1⟩)

/-- Dispatch a public operation call to its entry function. -/
def runOpEntry : OpCall → Sched → ProtoState → List Ev × Except PyErr EntryOk
  | .prepareOp n q t, sched, s => prepare sched s n q t
  | .bindExecuteOp st enc portal limit re t, sched, s =>
      bind_execute sched s st enc portal limit re t
  | .bindExecuteManyOp st portal t, sched, s =>
      bind_execute_many sched s st portal t
  | .bindOp st enc portal t, sched, s => bind sched s st enc portal t
  | .executeOp st portal limit re t, sched, s =>
      execute sched s st portal limit re t
  | .queryOp q t, sched, s => query sched s q t
  | .copyOutOp q t, sched, s => copy_out sched s q t
  | .copyInOp q _ t, sched, s => copy_in_entry sched s q t
  | .closeStatementOp st t, sched, s => close_statement sched s st t

/-- `BaseProtocol.pause_reading` (lines 144-147): clear `is_reading` and pause
the transport, when currently reading. -/
def pause_reading (s : ProtoState) : ProtoState × List Ev :=
  if s.is_reading then
    ({ s with is_reading := false }, [Ev.transportPauseReading])
  else
    (s, [])

/-- `BaseProtocol.resume_reading` (lines 139-142). -/
def resume_reading (s : ProtoState) : ProtoState × List Ev :=
  if s.is_reading then (s, [])
  else ({ s with is_reading := true }, [Ev.transportResumeReading])

/-- The per-state result hooks `_on_result__*` (lines 587-635) as invoked by
the dispatch switch (lines 668-703): produce the waiter's success value, the
state mutated by the hook, and transport events; or the exception the hook
raised (which the dispatch switch catches and sets on the waiter).  The
`decode` of status bytes is modelled as the identity on the already-decoded
string, with a missing message (`None`) raising `AttributeError`. -/
def hookResult (s : ProtoState) : Except PyErr (PyVal × ProtoState × List Ev) :=
  match s.pstate with
  | .AUTH => .ok (.vBool true, s, [])
  | .PREPARE =>
    match s.statement with
    | some st =>
        let st1 := match s.result_param_desc with
          | some d => { st with paramDesc := some d }
          | none => st
        let st2 := match s.result_row_desc with
          | some d => { st1 with rowDesc := some d }
          | none => st1
        .ok (.vStmt st2, { s with statement := some st2 }, [])
    | none =>
        -- non-debug build: `self.statement._set_args_desc` on `None` raises
        if s.result_param_desc.isSome || s.result_row_desc.isSome then
          .error .attributeError
        else
          .ok (.vNone, s, [])
  | .BIND_EXECUTE | .BIND_EXECUTE_MANY | .EXECUTE =>
    if s.return_extra then
      .ok (.vTuple3 (rvalVal s.result)
            (match s.result_status_msg with
             | some m => .vStr m
             | none => .vNone)
            (.vBool s.result_execute_completed), s, [])
    else
      .ok (rvalVal s.result, s, [])
  | .BIND => .ok (rvalVal s.result, s, [])
  | .CLOSE_STMT_PORTAL => .ok (rvalVal s.result, s, [])
  | .SIMPLE_QUERY =>
    match s.result_status_msg with
    | some m => .ok (.vStr m, s, [])
    | none => .error .attributeError
  | .COPY_OUT_DATA | .COPY_OUT_DONE =>
    let copyDone : Bool := s.pstate = .COPY_OUT_DONE
    match (if copyDone then
             match s.result_status_msg with
             | some m => Except.ok (PyVal.vStr m)
             | none => Except.error PyErr.attributeError
           else Except.ok PyVal.vNone : Except PyErr PyVal) with
    | .error e => .error e
    | .ok statusMsg =>
      let pr := pause_reading s
      .ok (.vTuple3 (rvalVal s.result) (.vBool copyDone) statusMsg, pr.1, pr.2)
  | .COPY_IN_DATA =>
    match s.result_status_msg with
    | some m => .ok (.vStr m, s, [])
    | none => .error .attributeError
  | _ => .error (.runtimeError "got result for unknown protocol state")

/-- `BaseProtocol._dispatch_result` (lines 645-706): take and clear the
waiter, skip a cancelled waiter, refuse a done one, complete it with the
server error on `RESULT_FAILED`, else run the per-state hook (any hook
exception completes the waiter instead).  The third component is an
exception escaping `_dispatch_result` itself (non-debug builds: attribute
access on a `None` waiter; a done waiter; `set_exception` on a
non-exception result). -/
def _dispatch_result (s : ProtoState) : ProtoState × List Ev × Option PyErr :=
  match s.waiter with
  | none => ({ s with waiter := none }, [], some .attributeError)
  | some fid =>
    let s0 := { s with waiter := none }
    match s0.futs fid with
    | .cancelled => (s0, [], none)
    | .doneRes _ => (s0, [], some (.runtimeError "_on_result: waiter is done"))
    | .doneExc _ => (s0, [], some (.runtimeError "_on_result: waiter is done"))
    | .pending =>
      match s0.result_type with
      | .failed =>
        match s0.result with
        | .dictMap _ =>
            (setFut s0 fid (.doneExc (.postgresError s0.last_query)), [], none)
        | .excVal e => (setFut s0 fid (.doneExc e), [], none)
        | .plain _ =>
            -- `waiter.set_exception` on a non-exception object raises
            (s0, [], some (.typeError "invalid exception object"))
      | .okType =>
        match hookResult s0 with
        | .ok r => (setFut r.2.1 fid (.doneRes r.1), r.2.2, none)
        | .error e => (setFut s0 fid (.doneExc e), [], none)

/-- `BaseProtocol._on_result` (lines 708-726): disarm the timer; while a
cancel is in flight, discard the result, resolve `cancel_waiter` with `None`
and clear both the cancel waiter and the pending waiter reference; otherwise
dispatch, and in all dispatch outcomes reset `statement`, `last_query` and
`return_extra` in the `finally`. -/
def _on_result (s : ProtoState) : ProtoState × List Ev × Option PyErr :=
  let t0 :=
    match s.timeout_handle with
    | some h => ({ s with timeout_handle := none }, [Ev.timerCancel h])
    | none => (s, ([] : List Ev))
  match t0.1.cancel_waiter with
  | some cw =>
    if t0.1.futs cw = .pending then
      ({ setFut t0.1 cw (.doneRes .vNone) with cancel_waiter := none,
                                               waiter := none },
       t0.2, none)
    else
      -- `set_result` on a completed future raises and escapes
      (t0.1, t0.2, some .invalidStateError)
  | none =>
    let d := _dispatch_result t0.1
    ({ d.1 with statement := none, last_query := none, return_extra := false },
     t0.2 ++ d.2.1, d.2.2)

/-- `BaseProtocol._handle_waiter_on_connection_lost` (lines 527-535): fail a
pending waiter with `ConnectionDoesNotExistError` (attaching `cause` when
present) and clear the waiter slot. -/
def _handle_waiter_on_connection_lost (s : ProtoState) (cause : Option Nat) :
    ProtoState :=
  let s1 :=
    match s.waiter with
    | some w =>
      if s.futs w = FutState.pending then
        setFut s w (.doneExc (.connectionDoesNotExistError cause))
      else s
    | none => s
  { s1 with waiter := none }

/-- `BaseProtocol._on_connection_lost` (lines 731-746): after a deliberate
close, complete the pending close waiter with `None` or the transport error;
otherwise mark closing and fail the in-flight waiter. -/
def _on_connection_lost (s : ProtoState) (exc : Option Nat) : ProtoState :=
  if s.closing then
    let s1 :=
      match s.waiter with
      | some w =>
        if s.futs w = FutState.pending then
          match exc with
          | none => setFut s w (.doneRes .vNone)
          | some t => setFut s w (.doneExc (.transportError t))
        else s
      | none => s
    { s1 with waiter := none }
  else
    _handle_waiter_on_connection_lost { s with closing := true } exc

/-- `BaseProtocol.abort` (lines 474-480): once closing, do nothing; else set
closing, fail any in-flight waiter, send Terminate, abort the transport. -/
def abort (s : ProtoState) : ProtoState × List Ev :=
  if s.closing then (s, [])
  else
    let s1 := _handle_waiter_on_connection_lost { s with closing := true } none
    (s1, [Ev.terminateMsg, Ev.transportAbort])

/-- The outcome of `close()`: the fast path returns `None` immediately; the
slow path suspends on the newly created close waiter. -/
inductive CloseOut where
  | returned
  | awaiting (fid : Nat)
  deriving DecidableEq, Repr

/-- `BaseProtocol.close` (lines 482-499): drain any cancel sequence, fail
and clear any in-flight waiter, return at once when already closing, else
send Terminate, create the close waiter, set closing, abort the transport
and await the waiter. -/
def close (sched : Sched) (s : ProtoState) : List Ev × ProtoState × CloseOut :=
  let d := drainCancel sched s
  let s1 := _handle_waiter_on_connection_lost d.2 none
  if s1.closing then (d.1, s1, .returned)
  else
    let p := createFuture s1
    let s2 := { p.2 with waiter := some p.1, closing := true }
    (d.1 ++ [Ev.terminateMsg, Ev.transportAbort], s2, .awaiting p.1)

/-- `WriteBuffer.write_int16`: two big-endian bytes of the value modulo
2^16 (two's complement for negatives). -/
def int16be (i : Int) : List Nat :=
  let n := (i % 65536).toNat
  [n / 256, n % 256]

/-- `WriteBuffer.write_int32`: four big-endian bytes of the value modulo
2^32. -/
def int32be (i : Int) : List Nat :=
  let n := (i % 4294967296).toNat
  [n / 16777216, n / 65536 % 256, n / 256 % 256, n % 256]

/-- Modelled from the spec: `_COPY_SIGNATURE` from `consts.pxi` (not part of
the analysed source): the canonical 11-byte binary COPY signature
`PGCOPY\n\xff\r\n\0`. -/
def copySignature : List Nat :=
  [80, 71, 67, 79, 80, 89, 10, 255, 13, 10, 0]

/-- Modelled from the spec: `_COPY_BUFFER_SIZE` from `consts.pxi` (not part
of the analysed source): the chunked COPY flush threshold, "default 32 KiB". -/
def copyBufferSize : Nat := 32768

/-- The inner column loop of binary `copy_in` (lines 387-389): for each codec
in order, encode the corresponding element of the row; a missing element
raises `IndexError`, a failing encode raises the codec's error.  Returns the
bytes appended to the write buffer. -/
def encodeCols : List Codec → List Nat → Except PyErr (List Nat)
  | [], _ => .ok []
  | _ :: _, [] => .error .indexError
  | c :: cs, v :: vs =>
    match c.enc v with
    | .error e => .error e
    | .ok b =>
      match encodeCols cs vs with
      | .error e => .error e
      | .ok rest => .ok (b ++ rest)

/-- The row loop of binary `copy_in` (lines 383-395): append the int16 column
count and the encoded columns for each row; after each row, if the
accumulated buffer has reached `copyBufferSize`, await the writing-allowed
gate and flush the buffer as one CopyData message.  Returns the trace and
either the leftover buffer or the first exception. -/
def recordsLoop (codecs : List Codec) (numCols : Nat) :
    List (List Nat) → List Nat → List Ev × Except PyErr (List Nat)
  | [], wbuf => ([], .ok wbuf)
  | row :: rows, wbuf =>
    match encodeCols codecs row with
    | .error e => ([], .error e)
    | .ok bytes =>
      let wbuf1 := wbuf ++ int16be (Int.ofNat numCols) ++ bytes
      if copyBufferSize ≤ wbuf1.length then
        let rest := recordsLoop codecs numCols rows []
        (Ev.awaitWritingAllowed :: Ev.copyDataMsg wbuf1 :: rest.1, rest.2)
      else
        recordsLoop codecs numCols rows wbuf1

/-- The binary-records branch of `copy_in` (lines 363-399): buffer starts
with the COPY signature, zero flags and zero header-extension length; every
codec must have an encoder (else `RuntimeError`); rows are framed by
`recordsLoop`; the terminator `int16(-1)` is appended and the final buffer is
written (without a gate await, mirroring line 399). -/
def copyInRecords (codecs : List Codec) (rows : List (List Nat)) :
    List Ev × Except PyErr Unit :=
  match codecs.find? (fun c => !c.hasEncoder) with
  | some c =>
      ([], .error (.runtimeError ("no encoder for OID " ++ toString c.oid)))
  | none =>
    let header := copySignature ++ int32be 0 ++ int32be 0
    let r := recordsLoop codecs codecs.length rows header
    match r.2 with
    | .error e => (r.1, .error e)
    | .ok wbuf => (r.1 ++ [Ev.copyDataMsg (wbuf ++ int16be (-1))], .ok ())

/-- The async-reader branch of `copy_in` (lines 409-422): before each chunk,
await the writing-allowed gate, then fetch the next chunk under the shared
timeout budget; `StopAsyncIteration` (also the end of the stream) exits the
loop normally, any other exception propagates. -/
def readerLoop : List (Except PyErr (List Nat)) → List Ev × Except PyErr Unit
  | [] => ([Ev.awaitWritingAllowed], .ok ())
  | c :: rest =>
    match c with
    | .error .stopAsyncIteration => ([Ev.awaitWritingAllowed], .ok ())
    | .error e => ([Ev.awaitWritingAllowed], .error e)
    | .ok chunk =>
      let r := readerLoop rest
      (Ev.awaitWritingAllowed :: Ev.copyDataMsg chunk :: r.1, r.2)

/-- The data-transfer phase of `copy_in` (the body of the `try` at lines
362-426), selecting the records, reader or plain-buffer branch. -/
def copyDataPhase : CopyInput → List Ev × Except PyErr Unit
  | .records codecs rows => copyInRecords codecs rows
  | .reader isAiter chunks =>
    if isAiter then readerLoop chunks
    else ([], .error (.typeError "reader is not an asynchronous iterable"))
  | .dataBuf bytes => ([Ev.awaitWritingAllowed, Ev.copyDataMsg bytes], .ok ())

/-- The continuation of `copy_in` after the data phase. -/
inductive CopyOutcome where
  | raised (e : PyErr)
  /-- suspended on a plain `await waiter`. -/
  | awaitingResult (fid : Nat)
  /-- suspended on the `await waiter` of the timeout branch, which re-raises
  whatever the waiter produces (lines 431-436). -/
  | awaitingReraise (fid : Nat)
  | returned (v : PyVal)
  deriving DecidableEq, Repr

/-- `await waiter` on line 445: the behaviour determined by the waiter's
current state. -/
def awaitWaiter (s : ProtoState) (fid : Nat) : CopyOutcome :=
  match s.futs fid with
  | .pending => .awaitingResult fid
  | .doneRes v => .returned v
  | .doneExc e => .raised e
  | .cancelled => .raised .cancelledError

/-- The `try: await waiter except TimeoutError: raise else: raise
RuntimeError(...)` of the timeout branch (lines 431-436). -/
def awaitWaiterReraise (s : ProtoState) (fid : Nat) : CopyOutcome :=
  match s.futs fid with
  | .pending => .awaitingReraise fid
  | .doneExc .timeoutError => .raised .timeoutError
  | .doneExc e => .raised e
  | .doneRes _ => .raised (.runtimeError "TimoutError was not raised")
  | .cancelled => .raised .cancelledError

/-- The body of `copy_in` after the COPY has been initiated (lines 362-447):
run the data phase; on `asyncio.TimeoutError` send `CopyFail('TimeoutError')`,
run `_on_timeout(self.waiter)` and re-await the waiter; on any other
exception send `CopyFail(str(e))`, request a best-effort protocol cancel and
re-raise; on success send `CopyDone` and await the waiter's status message. -/
def copyInBody (s : ProtoState) (input : CopyInput) (fid : Nat) :
    List Ev × ProtoState × CopyOutcome :=
  let d := copyDataPhase input
  match d.2 with
  | .ok _ =>
    (d.1 ++ [Ev.copyDoneMsg], s, awaitWaiter s fid)
  | .error e =>
    -- the ordered `except asyncio.TimeoutError` / `except Exception` chain
    if e = .timeoutError then
      let trF := d.1 ++ [Ev.copyFailMsg "TimeoutError"]
      match s.waiter with
      | some w =>
        let p := _on_timeout s w
        (trF ++ p.2, p.1, awaitWaiterReraise p.1 fid)
      | none =>
        -- `self._on_timeout(None)` evaluates `fut.done()` on `None` and raises
        (trF, s, .raised .attributeError)
    else
      let trF := d.1 ++ [Ev.copyFailMsg (pyStr e)]
      let p := _request_cancel s
      (trF ++ p.2, p.1, .raised e)

/-- Number of `CopyFail` messages in a trace. -/
def countFail (tr : List Ev) : Nat :=
  (tr.filter (fun e => match e with | .copyFailMsg _ => true | _ => false)).length

/-- Number of `CopyDone` messages in a trace. -/
def countDone (tr : List Ev) : Nat :=
  (tr.filter (fun e => match e with | .copyDoneMsg => true | _ => false)).length

/-! ## Concrete states used by witnesses -/

/-- A freshly connected, idle dispatcher state (the fields of
`BaseProtocol.__init__` after startup completed). -/
def baseState : ProtoState where
  waiter := none
  cancel_waiter := none
  cancel_sent_waiter := none
  statement := none
  return_extra := false
  last_query := none
  closing := false
  is_reading := true
  writing_allowed := true
  timeout_handle := none
  queries_count := 0
  cmdTimeout := none
  futs := fun _ => .pending
  nextFut := 0
  nextHandle := 0
  pstate := .SIMPLE_QUERY
  result_type := .okType
  result := .plain .vNone
  result_status_msg := some "ok"
  result_execute_completed := false
  result_param_desc := none
  result_row_desc := none

/-! ## Claims -/

/-- C2 (amended): timeout resolution.  `None` falls through to
`connection._config.command_timeout` and a resolved value ≤ 0 raises
`TimeoutError`, on both resolution paths; the `NO_TIMEOUT` sentinel resolves
to "no timeout" in `_get_timeout_impl` (used by every public operation except
`query`), but `query`'s pre-validating `_get_timeout` applies `float()` to it
and raises an uncaught `TypeError`; a Boolean is rejected with `ValueError`
only by `_get_timeout`, while `_get_timeout_impl` coerces it numerically
(`True ↦ 1.0`; `False ↦ 0.0`, which then raises `TimeoutError`). -/
theorem c2_timeout_resolution (cmd : Option ℚ) (q : ℚ) (b : Bool) :
    _get_timeout_impl cmd .tNone = posGuard cmd
    ∧ _get_timeout cmd .tNone = posGuard cmd
    ∧ _get_timeout_impl cmd .noTimeout = .ok none
    ∧ (q ≤ 0 → _get_timeout_impl cmd (.num q) = .error .timeoutError)
    ∧ (q ≤ 0 → _get_timeout cmd (.num q) = .error .timeoutError)
    ∧ _get_timeout cmd (.boolean b) =
        .error (.valueError "invalid timeout value: expected non-negative float")
    ∧ _get_timeout_impl cmd (.boolean true) = .ok (some 1)
    ∧ _get_timeout_impl cmd (.boolean false) = .error .timeoutError
    ∧ _get_timeout cmd .noTimeout =
        .error (.typeError "float() argument must be a real number") := by
  refine ⟨rfl, rfl, rfl, ?_, ?_, ?_, ?_, ?_, rfl⟩
  · intro h
    simp [_get_timeout_impl, pyFloat, posGuard, h]
  · intro h
    simp [_get_timeout, _get_timeout_impl, pyFloat, posGuard, h]
  · cases b <;> rfl
  · norm_num [_get_timeout_impl, pyFloat, posGuard]
  · norm_num [_get_timeout_impl, pyFloat, posGuard]

/-- C2 witness: concrete instances of the amended claim, derived from
`c2_timeout_resolution` at `command_timeout = 5`, `timeout = 0`. -/
theorem c2_witness :
    _get_timeout (some 5) (TimeoutVal.num 0) = .error .timeoutError
    ∧ _get_timeout_impl (some 5) TimeoutVal.noTimeout = .ok none
    ∧ _get_timeout_impl (some 5) TimeoutVal.tNone = .ok (some 5) := by
  have h := c2_timeout_resolution (some 5) 0 true
  refine ⟨h.2.2.2.2.1 (by norm_num), h.2.2.1, ?_⟩
  have h1 := h.1
  rw [h1]
  norm_num [posGuard]

/-- C2 counterexample: the claim as stated says a Boolean timeout is rejected
with `ValueError` by every public operation, but the operations that resolve
through `_get_timeout_impl` (e.g. `bind_execute`) coerce `True` through
`float()` to `1.0` and accept it. -/
theorem c2_counterexample :
    _get_timeout_impl (some 60) (TimeoutVal.boolean true) = .ok (some 1) := by
  norm_num [_get_timeout_impl, pyFloat, posGuard]

/-- C3: when the armed per-operation timer fires on future `fut`, the
callback acts only if `fut` is still the current waiter, is not yet done, no
cancel is in flight and the timeout handle is still set — in which case it
issues `_request_cancel()` (creating the cancel waiters, emitting the
side-channel cancel and moving the engine to `CANCELLED`) and immediately
fails the waiter with `TimeoutError`; in every other case it changes nothing
and emits nothing. -/
theorem c3_on_timeout (s : ProtoState) (fut : Nat) :
    (¬(s.waiter = some fut ∧ futIsDone (s.futs fut) = false ∧
        s.cancel_waiter = none ∧ s.timeout_handle.isSome = true) →
      _on_timeout s fut = (s, []))
    ∧ (s.waiter = some fut → futIsDone (s.futs fut) = false →
        s.cancel_waiter = none → s.timeout_handle.isSome = true →
        ((_on_timeout s fut).1.futs fut = .doneExc .timeoutError
         ∧ (_on_timeout s fut).1.cancel_waiter = some s.nextFut
         ∧ (_on_timeout s fut).1.cancel_sent_waiter = some (s.nextFut + 1)
         ∧ (_on_timeout s fut).1.pstate = .CANCELLED
         ∧ (_on_timeout s fut).2 = [Ev.cancelCurrentCommand (s.nextFut + 1)])) := by
  constructor
  · intro h
    unfold _on_timeout
    rw [if_neg h]
  · intro h1 h2 h3 h4
    unfold _on_timeout
    rw [if_pos ⟨h1, h2, h3, h4⟩]
    simp [_request_cancel, createFuture, setEngineState, setFut, updFn]

/-- C3 witness: a live waiter `0` with an armed timer; derived by applying
`c3_on_timeout` at that state. -/
theorem c3_witness :
    (_on_timeout { baseState with waiter := some 0, nextFut := 1,
                                  timeout_handle := some 0 } 0).1.pstate
        = .CANCELLED
    ∧ (_on_timeout { baseState with waiter := some 0, nextFut := 1,
                                    timeout_handle := some 0 } 0).1.futs 0
        = .doneExc .timeoutError
    ∧ (_on_timeout { baseState with waiter := some 0, nextFut := 1,
                                    timeout_handle := some 0 } 0).2
        = [Ev.cancelCurrentCommand 2] := by
  have h := (c3_on_timeout
    { baseState with waiter := some 0, nextFut := 1, timeout_handle := some 0 }
    0).2 rfl rfl rfl rfl
  exact ⟨h.2.2.2.1, h.1, h.2.2.2.2⟩

/-- C4: `_request_cancel` creates both cancel futures (fresh and pending),
hands `cancel_sent_waiter` to the connection's side-channel callback and
moves the engine to `CANCELLED`; thereafter, a terminal result arriving while
`cancel_waiter` is set is discarded by `_on_result` — no future other than
`cancel_waiter` changes state — while `cancel_waiter` is resolved with `None`
and cleared and the pending waiter reference is cleared. -/
theorem c4_request_cancel (s : ProtoState) (cw : Nat) :
    ((_request_cancel s).1.cancel_waiter = some s.nextFut
     ∧ (_request_cancel s).1.cancel_sent_waiter = some (s.nextFut + 1)
     ∧ (_request_cancel s).1.futs s.nextFut = .pending
     ∧ (_request_cancel s).1.futs (s.nextFut + 1) = .pending
     ∧ (_request_cancel s).2 = [Ev.cancelCurrentCommand (s.nextFut + 1)]
     ∧ (_request_cancel s).1.pstate = .CANCELLED)
    ∧ (s.cancel_waiter = some cw → s.futs cw = .pending →
        ((_on_result s).1.futs cw = .doneRes .vNone
         ∧ (_on_result s).1.cancel_waiter = none
         ∧ (_on_result s).1.waiter = none
         ∧ (_on_result s).2.2 = none
         ∧ ∀ f, f ≠ cw → (_on_result s).1.futs f = s.futs f)) := by
  constructor
  · simp [_request_cancel, createFuture, setEngineState, setFut, updFn]
  · intro h1 h2
    unfold _on_result
    cases ht : s.timeout_handle <;>
      simp [ht, h1, h2, setFut, updFn] <;>
      intro f hf <;> simp [hf]

/-- C4 witness: a cancel in flight (`cancel_waiter = 1`) with a pending
waiter `0`; the next terminal result resolves the cancel waiter with `None`
and leaves the operation waiter untouched. -/
theorem c4_witness :
    (_on_result { baseState with waiter := some 0, cancel_waiter := some 1,
                                 nextFut := 2 }).1.futs 1 = .doneRes .vNone
    ∧ (_on_result { baseState with waiter := some 0, cancel_waiter := some 1,
                                   nextFut := 2 }).1.cancel_waiter = none
    ∧ (_on_result { baseState with waiter := some 0, cancel_waiter := some 1,
                                   nextFut := 2 }).1.futs 0 = .pending := by
  have h := (c4_request_cancel
    { baseState with waiter := some 0, cancel_waiter := some 1, nextFut := 2 }
    1).2 rfl rfl
  exact ⟨h.1, h.2.1, by rw [h.2.2.2.2 0 (by decide)]; rfl⟩

/-- C7: when the transport is lost while an operation is in flight and the
dispatcher is not deliberately closing, the pending waiter is failed with
`ConnectionDoesNotExistError` carrying the transport error as its cause (when
one exists), the waiter slot is cleared and the dispatcher is marked closing;
after a deliberate `close()` (closing already set), the pending close waiter
is instead completed with `None`, or with the transport error itself when one
exists. -/
theorem c7_connection_lost (s : ProtoState) (exc : Option Nat) (w : Nat) :
    (s.closing = false → s.waiter = some w → s.futs w = .pending →
       ((_on_connection_lost s exc).futs w
           = .doneExc (.connectionDoesNotExistError exc)
        ∧ (_on_connection_lost s exc).waiter = none
        ∧ (_on_connection_lost s exc).closing = true))
    ∧ (s.closing = true → s.waiter = some w → s.futs w = .pending →
       ((_on_connection_lost s exc).futs w
           = (match exc with
              | none => FutState.doneRes .vNone
              | some t => FutState.doneExc (.transportError t))
        ∧ (_on_connection_lost s exc).waiter = none)) := by
  constructor
  · intro hc hw hp
    unfold _on_connection_lost _handle_waiter_on_connection_lost
    simp [hc, hw, hp, setFut, updFn]
  · intro hc hw hp
    unfold _on_connection_lost
    cases exc <;> simp [hc, hw, hp, setFut, updFn]

/-- C7 witness: transport lost mid-operation (not closing) with transport
error token `9` attached as the cause. -/
theorem c7_witness :
    (_on_connection_lost { baseState with waiter := some 0, nextFut := 1 }
        (some 9)).futs 0
      = .doneExc (.connectionDoesNotExistError (some 9))
    ∧ (_on_connection_lost { baseState with waiter := some 0, nextFut := 1 }
        (some 9)).closing = true := by
  have h := (c7_connection_lost { baseState with waiter := some 0, nextFut := 1 }
    (some 9) 0).1 rfl rfl rfl
  exact ⟨h.1, h.2.2⟩

/-- The entry shape shared by every public operation: the trace up to and
including the state validation is exactly the cancel-drain awaits followed by
the `_check_state` marker, and a failing `_check_state` aborts the entry with
its error and nothing else in the trace. -/
theorem withProlog_spec (sched : Sched) (s : ProtoState)
    (k : ProtoState → List Ev × Except PyErr EntryOk) :
    (withProlog sched s k).1.take ((drainCancel sched s).1.length + 1)
      = (drainCancel sched s).1 ++ [Ev.checkStateEv]
    ∧ ∀ e, _check_state (drainCancel sched s).2 = .error e →
        ((withProlog sched s k).2 = .error e
         ∧ (withProlog sched s k).1
             = (drainCancel sched s).1 ++ [Ev.checkStateEv]) := by
  unfold withProlog
  cases h : _check_state (drainCancel sched s).2 with
  | error e =>
    simp only [h]
    refine ⟨?_, ?_⟩
    · have hl : (drainCancel sched s).1.length + 1
          = ((drainCancel sched s).1 ++ [Ev.checkStateEv]).length := by
        simp
      rw [hl, List.take_length]
    · intro e' he'
      cases he'
      exact ⟨rfl, by simp⟩
  | ok u =>
    simp only [h]
    refine ⟨?_, ?_⟩
    · have hl : (drainCancel sched s).1.length + 1
          = ((drainCancel sched s).1 ++ [Ev.checkStateEv]).length := by
        simp
      rw [hl, List.take_left]
    · intro e' he'
      cases he'

/-- `_check_state` fails exactly when a cancel is in flight, the connection is
closing, or a waiter or timeout handle is already set — and the failure is
always an `InterfaceError`. -/
theorem check_state_interface_iff (s : ProtoState) :
    (∃ m, _check_state s = Except.error (PyErr.interfaceError m))
      ↔ (s.cancel_waiter.isSome = true ∨ s.closing = true
         ∨ s.waiter.isSome = true ∨ s.timeout_handle.isSome = true) := by
  unfold _check_state
  split_ifs with h1 h2 h3
  · simp [h1]
  · simp [h2]
  · rcases Bool.or_eq_true _ _ |>.mp h3 with h | h <;> simp [h]
  · simp only [Bool.or_eq_true] at h3
    constructor
    · rintro ⟨m, hm⟩
      cases hm
    · rintro (h | h | h | h)
      · exact absurd h (by simp [h1])
      · exact absurd h (by simp [h2])
      · exact absurd (Or.inl h) h3
      · exact absurd (Or.inr h) h3

/-- C1: every public operation (`prepare`, `bind_execute`,
`bind_execute_many`, `bind`, `execute`, `query`, `copy_out`, `copy_in`,
`close_statement`) first awaits any in-flight cancel sequence (the
cancel-drain awaits are the first trace events, directly followed by the
state validation), then fails with exactly the `_check_state` error — doing
nothing else — when validation fails; and `_check_state` raises an
`InterfaceError` precisely when a cancel is still in progress, the connection
is closing, or a waiter or timeout handle is already set. -/
theorem c1_single_in_flight (c : OpCall) (sched : Sched) (s : ProtoState) :
    ((runOpEntry c sched s).1.take ((drainCancel sched s).1.length + 1)
       = (drainCancel sched s).1 ++ [Ev.checkStateEv]
     ∧ ∀ e, _check_state (drainCancel sched s).2 = .error e →
         ((runOpEntry c sched s).2 = .error e
          ∧ (runOpEntry c sched s).1
              = (drainCancel sched s).1 ++ [Ev.checkStateEv]))
    ∧ ((∃ m, _check_state (drainCancel sched s).2
          = Except.error (PyErr.interfaceError m))
        ↔ ((drainCancel sched s).2.cancel_waiter.isSome = true
           ∨ (drainCancel sched s).2.closing = true
           ∨ (drainCancel sched s).2.waiter.isSome = true
           ∨ (drainCancel sched s).2.timeout_handle.isSome = true)) := by
  refine ⟨?_, check_state_interface_iff _⟩
  cases c <;> exact withProlog_spec sched s _

/-- C1 witness: on a closing connection, `query` drains nothing, validates,
and fails with the "connection is closed" `InterfaceError` without emitting
any message; derived by applying `c1_single_in_flight`. -/
theorem c1_witness :
    (runOpEntry (OpCall.queryOp "SELECT 1" TimeoutVal.tNone) idSched
        { baseState with closing := true }).2
      = .error (.interfaceError "cannot perform operation: connection is closed")
    ∧ (runOpEntry (OpCall.queryOp "SELECT 1" TimeoutVal.tNone) idSched
        { baseState with closing := true }).1 = [Ev.checkStateEv] := by
  have h := (c1_single_in_flight (OpCall.queryOp "SELECT 1" TimeoutVal.tNone)
    idSched { baseState with closing := true }).1.2
    (.interfaceError "cannot perform operation: connection is closed") rfl
  exact ⟨h.1, h.2⟩

/-- Modelled from the spec: the engine's `result` value for a completed Close
flight — the host-side API table gives `close_statement(stmt, timeout)` the
result `None`. -/
def closeStmtEngineResult : RVal := .plain .vNone

/-- The cancel-drain prologue emits only `awaitFut` events. -/
theorem drainCancel_awaits (sched : Sched) (s : ProtoState) :
    ∀ e ∈ (drainCancel sched s).1, ∃ f, e = Ev.awaitFut f := by
  intro e he
  unfold drainCancel at he
  cases h1 : s.cancel_waiter with
  | none =>
    simp only [h1] at he
    cases h2 : s.cancel_sent_waiter with
    | none => simp [h2] at he
    | some f =>
      simp only [h2, List.nil_append] at he
      simp at he
      exact ⟨f, he⟩
  | some f1 =>
    simp only [h1] at he
    cases h2 : (sched.r1 s).cancel_sent_waiter with
    | none =>
      simp only [h2] at he
      simp at he
      exact ⟨f1, he⟩
    | some f2 =>
      simp only [h2] at he
      simp at he
      rcases he with h | h
      · exact ⟨f1, h⟩
      · exact ⟨f2, h⟩

/-- A successful `_check_state` means no cancel waiter, not closing, no
waiter, no timeout handle. -/
theorem check_state_ok_fields (s : ProtoState)
    (h : _check_state s = .ok ()) :
    s.cancel_waiter = none ∧ s.closing = false ∧ s.waiter = none
    ∧ s.timeout_handle = none := by
  unfold _check_state at h
  split_ifs at h with h1 h2 h3
  simp only [Bool.or_eq_true] at h3
  push_neg at h3
  refine ⟨?_, ?_, ?_, ?_⟩
  · exact Option.not_isSome_iff_eq_none.mp (by simpa using h1)
  · simpa using h2
  · exact Option.not_isSome_iff_eq_none.mp (by simpa using h3.1)
  · exact Option.not_isSome_iff_eq_none.mp (by simpa using h3.2)

/-- C8: `close_statement(stmt, timeout)` requires `stmt.refs == 0`: with
nonzero refs it raises (a `RuntimeError`) and never emits a Close message on
any path; with zero refs (and passing validation and timeout resolution) it
emits the Close message, returns the statement marked closed, and the
operation's eventual result — delivered by `_on_result` from the engine's
Close result — is `None`. -/
theorem c8_close_statement (sched : Sched) (s s2 : ProtoState) (st : Stmt)
    (t : TimeoutVal) (tq : Option ℚ) (w : Nat) :
    (st.refs ≠ 0 → ∀ n b, Ev.closeMsg n b ∉ (close_statement sched s st t).1)
    ∧ (st.refs ≠ 0 → _check_state (drainCancel sched s).2 = .ok () →
        _get_timeout_impl (drainCancel sched s).2.cmdTimeout t = .ok tq →
        (close_statement sched s st t).2
          = .error (.runtimeError ("cannot close prepared statement; refs == "
              ++ toString st.refs ++ " != 0")))
    ∧ (st.refs = 0 → _check_state (drainCancel sched s).2 = .ok () →
        _get_timeout_impl (drainCancel sched s).2.cmdTimeout t = .ok tq →
        ((∃ ek : EntryOk, (close_statement sched s st t).2 = .ok ek
            ∧ ek.stmtOut = some { st with closed := true })
         ∧ Ev.closeMsg st.name false ∈ (close_statement sched s st t).1))
    ∧ (s2.pstate = .CLOSE_STMT_PORTAL → s2.cancel_waiter = none →
        s2.waiter = some w → s2.futs w = .pending →
        s2.result_type = .okType → s2.result = closeStmtEngineResult →
        (_on_result s2).1.futs w = .doneRes .vNone) := by
  refine ⟨?_, ?_, ?_, ?_⟩
  · intro hrefs n b hmem
    unfold close_statement withProlog at hmem
    cases hc : _check_state (drainCancel sched s).2 with
    | error e =>
      simp only [hc, List.mem_append, List.mem_singleton] at hmem
      rcases hmem with h | h
      · obtain ⟨f, hf⟩ := drainCancel_awaits sched s _ h
        cases hf
      · cases h
    | ok u =>
      simp only [hc] at hmem
      cases hto : _get_timeout_impl (drainCancel sched s).2.cmdTimeout t with
      | error e =>
        simp only [hto, List.append_nil, List.mem_append,
          List.mem_singleton] at hmem
        rcases hmem with h | h
        · obtain ⟨f, hf⟩ := drainCancel_awaits sched s _ h
          cases hf
        · cases h
      | ok tq2 =>
        simp only [hto] at hmem
        rw [if_pos hrefs] at hmem
        simp only [List.append_nil, List.mem_append,
          List.mem_singleton] at hmem
        rcases hmem with h | h
        · obtain ⟨f, hf⟩ := drainCancel_awaits sched s _ h
          cases hf
        · cases h
  · intro hrefs hc hto
    unfold close_statement withProlog
    simp only [hc, hto]
    rw [if_pos hrefs]
  · intro hrefs hc hto
    obtain ⟨_, _, hw, _⟩ := check_state_ok_fields _ hc
    have hnw : ∃ evs fid s3,
        _new_waiter (drainCancel sched s).2 tq = (evs, .ok (fid, s3)) := by
      unfold _new_waiter
      simp only [hw, Option.isSome_none, Bool.false_eq_true, if_false]
      cases tq with
      | none => exact ⟨_, _, _, rfl⟩
      | some q => exact ⟨_, _, _, rfl⟩
    obtain ⟨evs, fid, s3, hnw⟩ := hnw
    have hnw2 : (_new_waiter (drainCancel sched s).2 tq).2 = .ok (fid, s3) := by
      rw [hnw]
    unfold close_statement withProlog
    simp only [hc, hto]
    rw [if_neg (by simp [hrefs])]
    simp only [hnw2]
    exact ⟨⟨_, rfl, rfl⟩, by simp⟩
  · intro hps hcw hwt hpend hrt hres
    unfold _on_result
    cases ht : s2.timeout_handle with
    | none =>
      simp only [ht, hcw]
      unfold _dispatch_result
      simp only [hwt, hpend, hrt]
      unfold hookResult
      simp [hps, hres, closeStmtEngineResult, rvalVal, setFut, updFn]
    | some hd =>
      simp only [ht, hcw]
      unfold _dispatch_result
      simp only [hwt, hpend, hrt]
      unfold hookResult
      simp [hps, hres, closeStmtEngineResult, rvalVal, setFut, updFn]

/-- C8 witness: closing a statement with `refs == 0` emits the Close message;
with `refs == 1` the call fails with the refcount error.  Derived from
`c8_close_statement` on the idle base state. -/
theorem c8_witness :
    Ev.closeMsg "s1" false ∈
      (close_statement idSched baseState
        ⟨"s1", "SELECT 1", 0, false, none, none⟩ .tNone).1
    ∧ (close_statement idSched baseState
        ⟨"s1", "SELECT 1", 1, false, none, none⟩ .tNone).2
      = .error (.runtimeError
          "cannot close prepared statement; refs == 1 != 0") := by
  have h3 := (c8_close_statement idSched baseState baseState
    ⟨"s1", "SELECT 1", 0, false, none, none⟩ .tNone none 0).2.2.1 rfl rfl rfl
  have h2 := (c8_close_statement idSched baseState baseState
    ⟨"s1", "SELECT 1", 1, false, none, none⟩ .tNone none 0).2.1
    (by decide) rfl rfl
  refine ⟨h3.2, ?_⟩
  rw [h2]
  rfl

/-- `_handle_waiter_on_connection_lost` only fails the pending waiter and
clears the waiter slot: all other fields are untouched. -/
theorem handle_waiter_frame (s : ProtoState) (c : Option Nat) :
    (_handle_waiter_on_connection_lost s c).closing = s.closing
    ∧ (_handle_waiter_on_connection_lost s c).waiter = none
    ∧ (_handle_waiter_on_connection_lost s c).nextFut = s.nextFut := by
  unfold _handle_waiter_on_connection_lost
  cases hw : s.waiter with
  | none => exact ⟨rfl, rfl, rfl⟩
  | some w =>
    by_cases hp : s.futs w = FutState.pending
    · simp [hp, setFut]
    · simp [hp]

/-- C10: `abort()` is idempotent — once `closing` is set a further `abort()`
changes nothing and emits nothing, and the first `abort()` sets `closing`,
fails any pending in-flight waiter with `ConnectionDoesNotExistError`, clears
the waiter slot and emits exactly Terminate followed by the transport abort;
the closed fast path of `close()` completes without emitting Terminate and
without creating a new waiter. -/
theorem c10_abort_close (sched : Sched) (s : ProtoState) (w : Nat) :
    (s.closing = true → abort s = (s, []))
    ∧ abort (abort s).1 = ((abort s).1, [])
    ∧ ((drainCancel sched s).2.closing = true →
        ((close sched s).2.2 = CloseOut.returned
         ∧ Ev.terminateMsg ∉ (close sched s).1
         ∧ (close sched s).2.1.nextFut = (drainCancel sched s).2.nextFut
         ∧ (close sched s).2.1.waiter = none))
    ∧ (s.closing = false →
        ((abort s).1.closing = true
         ∧ (abort s).2 = [Ev.terminateMsg, Ev.transportAbort]
         ∧ (abort s).1.waiter = none
         ∧ (s.waiter = some w → s.futs w = .pending →
             (abort s).1.futs w
               = .doneExc (.connectionDoesNotExistError none)))) := by
  have habort : s.closing = false →
      (abort s).1
        = _handle_waiter_on_connection_lost { s with closing := true } none := by
    intro h
    unfold abort
    rw [if_neg (by simp [h])]
  have abortClosed : ∀ x : ProtoState, x.closing = true → abort x = (x, []) := by
    intro x hx
    unfold abort
    rw [if_pos hx]
  refine ⟨abortClosed s, ?_, ?_, ?_⟩
  · by_cases h : s.closing = true
    · rw [abortClosed s h]
      exact abortClosed s h
    · have h0 : s.closing = false := by simpa using h
      have h2 : (abort s).1.closing = true := by
        rw [habort h0]
        exact (handle_waiter_frame _ _).1
      exact abortClosed _ h2
  · intro h
    have hcl : (_handle_waiter_on_connection_lost (drainCancel sched s).2
        none).closing = true := by
      rw [(handle_waiter_frame _ _).1]
      exact h
    unfold close
    rw [if_pos hcl]
    refine ⟨rfl, ?_, (handle_waiter_frame _ _).2.2, (handle_waiter_frame _ _).2.1⟩
    intro hmem
    obtain ⟨f, hf⟩ := drainCancel_awaits sched s _ hmem
    cases hf
  · intro h
    have h1 := habort h
    refine ⟨by rw [h1]; exact (handle_waiter_frame _ _).1, ?_, ?_, ?_⟩
    · unfold abort
      rw [if_neg (by simp [h])]
    · rw [h1]
      exact (handle_waiter_frame _ _).2.1
    · intro hw hp
      rw [h1]
      unfold _handle_waiter_on_connection_lost
      simp [hw, hp, setFut, updFn]

/-- C10 witness: aborting an open connection with a pending waiter `0`, then
aborting again.  Derived from `c10_abort_close`. -/
theorem c10_witness :
    (abort { baseState with waiter := some 0, nextFut := 1 }).2
      = [Ev.terminateMsg, Ev.transportAbort]
    ∧ (abort { baseState with waiter := some 0, nextFut := 1 }).1.futs 0
      = .doneExc (.connectionDoesNotExistError none)
    ∧ abort (abort { baseState with waiter := some 0, nextFut := 1 }).1
      = ((abort { baseState with waiter := some 0, nextFut := 1 }).1, []) := by
  have h := c10_abort_close idSched
    { baseState with waiter := some 0, nextFut := 1 } 0
  have h4 := h.2.2.2 rfl
  exact ⟨h4.2.1, h4.2.2.2 rfl rfl, h.2.1⟩

/-- The dispatcher fields that result dispatch never modifies. -/
def untouchedByResult (a b : ProtoState) : Prop :=
  a.cancel_sent_waiter = b.cancel_sent_waiter ∧ a.closing = b.closing
  ∧ a.writing_allowed = b.writing_allowed ∧ a.queries_count = b.queries_count
  ∧ a.cmdTimeout = b.cmdTimeout ∧ a.nextFut = b.nextFut
  ∧ a.nextHandle = b.nextHandle ∧ a.pstate = b.pstate
  ∧ a.result_type = b.result_type ∧ a.result = b.result
  ∧ a.result_status_msg = b.result_status_msg
  ∧ a.result_execute_completed = b.result_execute_completed
  ∧ a.result_param_desc = b.result_param_desc
  ∧ a.result_row_desc = b.result_row_desc

/-- A successful result hook leaves every dispatcher field unchanged except
possibly `statement` (the prepare hook caches descriptors on it) and
`is_reading`, which only the copy-out hook can clear (via `pause_reading`),
and only when the engine is in a copy-out state. -/
theorem hookResult_frame (s : ProtoState) (v : PyVal) (s' : ProtoState)
    (ev : List Ev) (h : hookResult s = .ok (v, s', ev)) :
    untouchedByResult s' s
    ∧ s'.waiter = s.waiter ∧ s'.cancel_waiter = s.cancel_waiter
    ∧ s'.timeout_handle = s.timeout_handle ∧ s'.futs = s.futs
    ∧ s'.return_extra = s.return_extra ∧ s'.last_query = s.last_query
    ∧ (s'.is_reading = s.is_reading ∨ s'.is_reading = false)
    ∧ ((s.pstate ≠ .COPY_OUT_DATA ∧ s.pstate ≠ .COPY_OUT_DONE) →
        s'.is_reading = s.is_reading) := by
  unfold hookResult at h
  cases hp : s.pstate <;> rw [hp] at h
  case NOT_CONNECTED => cases h
  case AUTH =>
    cases h
    simp [untouchedByResult, hp]
  case PREPARE =>
    cases hst : s.statement with
    | some st =>
      rw [hst] at h
      cases h
      simp [untouchedByResult, hp]
    | none =>
      rw [hst] at h
      by_cases hd : s.result_param_desc.isSome || s.result_row_desc.isSome
      · rw [if_pos hd] at h
        cases h
      · rw [if_neg hd] at h
        cases h
        simp [untouchedByResult, hp]
  case BIND_EXECUTE =>
    by_cases hre : s.return_extra = true
    · rw [if_pos hre] at h
      cases h
      simp [untouchedByResult, hp]
    · rw [if_neg hre] at h
      cases h
      simp [untouchedByResult, hp]
  case BIND_EXECUTE_MANY =>
    by_cases hre : s.return_extra = true
    · rw [if_pos hre] at h
      cases h
      simp [untouchedByResult, hp]
    · rw [if_neg hre] at h
      cases h
      simp [untouchedByResult, hp]
  case EXECUTE =>
    by_cases hre : s.return_extra = true
    · rw [if_pos hre] at h
      cases h
      simp [untouchedByResult, hp]
    · rw [if_neg hre] at h
      cases h
      simp [untouchedByResult, hp]
  case BIND =>
    cases h
    simp [untouchedByResult, hp]
  case CLOSE_STMT_PORTAL =>
    cases h
    simp [untouchedByResult, hp]
  case SIMPLE_QUERY =>
    cases hm : s.result_status_msg with
    | some m =>
      rw [hm] at h
      cases h
      simp [untouchedByResult, hp]
    | none =>
      rw [hm] at h
      cases h
  case COPY_OUT_DATA =>
    simp only [reduceCtorEq, reduceIte] at h
    unfold pause_reading at h
    by_cases hr : s.is_reading = true
    · rw [if_pos hr] at h
      cases h
      refine ⟨by simp [untouchedByResult], rfl, rfl, rfl, rfl, rfl, rfl,
        Or.inr rfl, ?_⟩
      intro hcon
      exact absurd rfl hcon.1
    · rw [if_neg hr] at h
      cases h
      refine ⟨by simp [untouchedByResult], rfl, rfl, rfl, rfl, rfl, rfl,
        Or.inl rfl, fun _ => rfl⟩
  case COPY_OUT_DONE =>
    cases hm : s.result_status_msg with
    | some m =>
      rw [hm] at h
      simp only [] at h
      unfold pause_reading at h
      by_cases hr : s.is_reading = true
      · rw [if_pos hr] at h
        cases h
        refine ⟨by simp [untouchedByResult], rfl, rfl, rfl, rfl, rfl, rfl,
          Or.inr rfl, ?_⟩
        intro hcon
        exact absurd rfl hcon.2
      · rw [if_neg hr] at h
        cases h
        refine ⟨by simp [untouchedByResult], rfl, rfl, rfl, rfl, rfl, rfl,
          Or.inl rfl, fun _ => rfl⟩
    | none =>
      rw [hm] at h
      simp only [reduceIte] at h
      cases h
  case COPY_IN_DATA =>
    cases hm : s.result_status_msg with
    | some m =>
      rw [hm] at h
      cases h
      simp [untouchedByResult, hp]
    | none =>
      rw [hm] at h
      cases h
  case CANCELLED => cases h
  case TERMINATING => cases h
  case FAILED => cases h

/-- `_dispatch_result` clears the waiter slot, completes at most the waiter's
future, and modifies no other dispatcher field except possibly `statement`
(prepare hook) and `is_reading` (copy-out hook, only in copy-out states). -/
theorem dispatch_frame (s : ProtoState) :
    untouchedByResult (_dispatch_result s).1 s
    ∧ (_dispatch_result s).1.waiter = none
    ∧ (_dispatch_result s).1.cancel_waiter = s.cancel_waiter
    ∧ (_dispatch_result s).1.timeout_handle = s.timeout_handle
    ∧ ((_dispatch_result s).1.is_reading = s.is_reading
        ∨ (_dispatch_result s).1.is_reading = false)
    ∧ ((s.pstate ≠ .COPY_OUT_DATA ∧ s.pstate ≠ .COPY_OUT_DONE) →
        (_dispatch_result s).1.is_reading = s.is_reading) := by
  unfold _dispatch_result
  cases hw : s.waiter with
  | none => simp [untouchedByResult]
  | some fid =>
    cases hf : s.futs fid with
    | cancelled => simp [hf, untouchedByResult]
    | doneRes v => simp [hf, untouchedByResult]
    | doneExc e => simp [hf, untouchedByResult]
    | pending =>
      simp only [hf]
      split
      · split <;> simp [untouchedByResult, setFut]
      · cases hh : hookResult { s with waiter := none } with
        | error e => simp [hh, untouchedByResult, setFut]
        | ok r =>
          obtain ⟨hu, hwt, hcw, hth, hfu, hre, hlq, hir, hirp⟩ :=
            hookResult_frame { s with waiter := none } r.1 r.2.1 r.2.2
              (by rw [hh])
          simp only [hh, setFut]
          exact ⟨hu, hwt, hcw, hth, hir, hirp⟩

/-- C9 (amended): after every terminal result processed by `_on_result` the
timeout handle is disarmed and the waiter slot is cleared; on the non-cancel
paths (result, exception, cancelled waiter) `statement`, `last_query` and
`return_extra` are reset to `None`/`None`/`False`, while the cancel-discard
path leaves those three untouched; beyond this, the only dispatcher fields
result dispatch can modify are `is_reading` — cleared by the copy-out result
hook's `pause_reading`, and only in a copy-out engine state — and the
`statement` contents while the prepare hook caches descriptors (overwritten
by the reset); every other dispatcher field is unmodified. -/
theorem c9_result_dispatch_frame (s : ProtoState)
    (hcw : ∀ cw, s.cancel_waiter = some cw → s.futs cw = .pending) :
    untouchedByResult (_on_result s).1 s
    ∧ (_on_result s).1.timeout_handle = none
    ∧ (_on_result s).1.waiter = none
    ∧ (s.cancel_waiter = none →
        (_on_result s).1.statement = none
        ∧ (_on_result s).1.last_query = none
        ∧ (_on_result s).1.return_extra = false)
    ∧ (∀ cw, s.cancel_waiter = some cw →
        (_on_result s).1.statement = s.statement
        ∧ (_on_result s).1.last_query = s.last_query
        ∧ (_on_result s).1.return_extra = s.return_extra
        ∧ (_on_result s).1.cancel_waiter = none)
    ∧ ((_on_result s).1.is_reading = s.is_reading
        ∨ (_on_result s).1.is_reading = false)
    ∧ ((s.pstate ≠ .COPY_OUT_DATA ∧ s.pstate ≠ .COPY_OUT_DONE) →
        (_on_result s).1.is_reading = s.is_reading) := by
  unfold _on_result
  cases ht : s.timeout_handle with
  | none =>
    simp only [ht]
    cases hcwv : s.cancel_waiter with
    | some cw =>
      have hp : s.futs cw = FutState.pending := hcw cw hcwv
      dsimp only
      rw [if_pos hp]
      refine ⟨by simp [untouchedByResult, setFut], ht, rfl, ?_, ?_,
        Or.inl rfl, fun _ => rfl⟩
      · intro h
        cases h
      · intro cw2 _
        exact ⟨rfl, rfl, rfl, rfl⟩
    | none =>
      obtain ⟨hu, hwt, hcwd, hth, hir, hirp⟩ := dispatch_frame s
      refine ⟨hu, ?_, hwt, fun _ => ⟨rfl, rfl, rfl⟩, ?_, hir, hirp⟩
      · show (_dispatch_result s).1.timeout_handle = none
        rw [hth, ht]
      · intro cw2 hcw2
        cases hcw2
  | some hd =>
    simp only [ht]
    cases hcwv : s.cancel_waiter with
    | some cw =>
      have hp : s.futs cw = FutState.pending := hcw cw hcwv
      dsimp only
      rw [if_pos hp]
      refine ⟨by simp [untouchedByResult, setFut], rfl, rfl, ?_, ?_,
        Or.inl rfl, fun _ => rfl⟩
      · intro h
        cases h
      · intro cw2 _
        exact ⟨rfl, rfl, rfl, rfl⟩
    | none =>
      obtain ⟨hu, hwt, hcwd, hth, hir, hirp⟩ :=
        dispatch_frame { s with cancel_waiter := none, timeout_handle := none }
      refine ⟨hu, ?_, hwt, fun _ => ⟨rfl, rfl, rfl⟩, ?_, hir, hirp⟩
      · show (_dispatch_result
            { s with cancel_waiter := none,
                     timeout_handle := none }).1.timeout_handle = none
        rw [hth]
      · intro cw2 hcw2
        cases hcw2

/-- A dispatcher state holding a pending waiter `0` for a copy-out operation
whose terminal data event has just arrived. -/
def copyOutResultState : ProtoState :=
  { baseState with
      pstate := .COPY_OUT_DATA
      waiter := some 0
      nextFut := 1
      result := .plain (.vBytes [1]) }

/-- A dispatcher state holding a pending waiter `0` with an armed timer for a
simple query whose terminal result has just arrived. -/
def simpleQueryResultState : ProtoState :=
  { baseState with
      waiter := some 0
      nextFut := 1
      timeout_handle := some 0
      statement := some (freshStmt "p" "q")
      last_query := some "q"
      return_extra := true }

/-- C9 counterexample: the claim as stated says result dispatch modifies no
dispatcher field beyond the listed per-operation resets, but a terminal
copy-out result runs `pause_reading`, clearing `is_reading`. -/
theorem c9_counterexample :
    copyOutResultState.is_reading = true
    ∧ (_on_result copyOutResultState).1.is_reading = false := by
  constructor
  · rfl
  · rfl

/-- C9 witness: on a plain simple-query terminal result the per-operation
fields are reset, the timer is disarmed and the waiter slot cleared; derived
from `c9_result_dispatch_frame`. -/
theorem c9_witness :
    (_on_result simpleQueryResultState).1.statement = none
    ∧ (_on_result simpleQueryResultState).1.timeout_handle = none
    ∧ (_on_result simpleQueryResultState).1.waiter = none := by
  have h := c9_result_dispatch_frame simpleQueryResultState
    (by intro cw hcw; cases hcw)
  exact ⟨(h.2.2.2.1 rfl).1, h.2.1, h.2.2.1⟩

theorem countFail_append (a b : List Ev) :
    countFail (a ++ b) = countFail a + countFail b := by
  simp [countFail, List.filter_append]

theorem countDone_append (a b : List Ev) :
    countDone (a ++ b) = countDone a + countDone b := by
  simp [countDone, List.filter_append]

/-- The reader loop emits only gate awaits and CopyData messages. -/
theorem readerLoop_counts (chunks : List (Except PyErr (List Nat))) :
    countFail (readerLoop chunks).1 = 0 ∧ countDone (readerLoop chunks).1 = 0 := by
  induction chunks with
  | nil => simp [readerLoop, countFail, countDone]
  | cons c rest ih =>
    cases c with
    | error e => cases e <;> simp [readerLoop, countFail, countDone]
    | ok chunk =>
      unfold readerLoop
      simpa [countFail, countDone] using ih

/-- The records loop emits only gate awaits and CopyData messages. -/
theorem recordsLoop_counts (codecs : List Codec) (n : Nat)
    (rows : List (List Nat)) : ∀ wbuf : List Nat,
    countFail (recordsLoop codecs n rows wbuf).1 = 0
    ∧ countDone (recordsLoop codecs n rows wbuf).1 = 0 := by
  induction rows with
  | nil => intro wbuf; simp [recordsLoop, countFail, countDone]
  | cons row rows ih =>
    intro wbuf
    unfold recordsLoop
    cases hE : encodeCols codecs row with
    | error e => simp [countFail, countDone]
    | ok bytes =>
      dsimp only
      by_cases hL : copyBufferSize
          ≤ (wbuf ++ int16be (Int.ofNat n) ++ bytes).length
      · rw [if_pos hL]
        have := ih []
        simp [countFail, countDone] at this ⊢
        exact this
      · rw [if_neg hL]
        exact ih _

/-- The entire COPY IN data phase emits no CopyFail and no CopyDone. -/
theorem copyDataPhase_counts (input : CopyInput) :
    countFail (copyDataPhase input).1 = 0
    ∧ countDone (copyDataPhase input).1 = 0 := by
  cases input with
  | records codecs rows =>
    unfold copyDataPhase copyInRecords
    cases hf : codecs.find? (fun c => !c.hasEncoder) with
    | some c => simp [hf, countFail, countDone]
    | none =>
      simp only [hf]
      cases hr : (recordsLoop codecs codecs.length rows
          (copySignature ++ int32be 0 ++ int32be 0)).2 with
      | error e =>
        simp only [hr]
        exact recordsLoop_counts codecs codecs.length rows _
      | ok wbuf =>
        simp only [hr]
        have := recordsLoop_counts codecs codecs.length rows
          (copySignature ++ int32be 0 ++ int32be 0)
        constructor
        · rw [countFail_append, this.1]
          simp [countFail]
        · rw [countDone_append, this.2]
          simp [countDone]
  | reader isAiter chunks =>
    unfold copyDataPhase
    dsimp only
    by_cases ha : isAiter = true
    · rw [if_pos ha]
      exact readerLoop_counts chunks
    · rw [if_neg ha]
      simp [countFail, countDone]
  | dataBuf bytes => simp [copyDataPhase, countFail, countDone]

/-- `_on_timeout` emits at most a side-channel cancel request — never a
CopyFail or CopyDone. -/
theorem onTimeout_counts (s : ProtoState) (w : Nat) :
    countFail (_on_timeout s w).2 = 0 ∧ countDone (_on_timeout s w).2 = 0 := by
  unfold _on_timeout
  split_ifs with h
  · simp [_request_cancel, countFail, countDone]
  · simp [countFail, countDone]

/-- C5: once the COPY has been initiated, `copy_in`'s data phase ends with
exactly one of CopyDone or CopyFail: on the success path exactly one CopyDone
is sent and no CopyFail; on every caller-side error exactly one CopyFail is
sent — with the reason string `'TimeoutError'` when the error is the timeout
machinery's `TimeoutError`, and with `str(e)` as the reason plus a
best-effort side-channel protocol cancel (and `e` re-raised) for any other
exception. -/
theorem c5_copy_in_fail (s : ProtoState) (input : CopyInput) (fid : Nat) :
    countFail (copyInBody s input fid).1 + countDone (copyInBody s input fid).1
      = 1
    ∧ ((copyDataPhase input).2 = .ok () →
        countFail (copyInBody s input fid).1 = 0
        ∧ Ev.copyDoneMsg ∈ (copyInBody s input fid).1)
    ∧ (∀ e, (copyDataPhase input).2 = .error e →
        countDone (copyInBody s input fid).1 = 0
        ∧ countFail (copyInBody s input fid).1 = 1
        ∧ (e = .timeoutError →
            Ev.copyFailMsg "TimeoutError" ∈ (copyInBody s input fid).1)
        ∧ (e ≠ .timeoutError →
            (Ev.copyFailMsg (pyStr e) ∈ (copyInBody s input fid).1
             ∧ Ev.cancelCurrentCommand (s.nextFut + 1)
                 ∈ (copyInBody s input fid).1
             ∧ (copyInBody s input fid).2.2 = .raised e))) := by
  obtain ⟨hcf, hcd⟩ := copyDataPhase_counts input
  unfold copyInBody
  cases hd : (copyDataPhase input).2 with
  | ok u =>
    cases u
    simp only [hd]
    refine ⟨?_, ?_, ?_⟩
    · rw [countFail_append, countDone_append, hcf, hcd]
      simp [countFail, countDone]
    · intro _
      constructor
      · rw [countFail_append, hcf]
        simp [countFail]
      · simp
    · intro e he
      cases he
  | error e =>
    simp only [hd]
    by_cases he : e = PyErr.timeoutError
    · rw [if_pos he]
      cases hw : s.waiter with
      | some w =>
        obtain ⟨htf, htd⟩ := onTimeout_counts s w
        dsimp only
        refine ⟨?_, ?_, ?_⟩
        · rw [countFail_append, countDone_append, countFail_append,
            countDone_append, hcf, hcd, htf, htd]
          simp [countFail, countDone]
        · intro hok
          cases hok
        · intro e2 he2
          cases he2
          refine ⟨?_, ?_, fun _ => by simp, fun hne => absurd he hne⟩
          · rw [countDone_append, countDone_append, hcd, htd]
            simp [countDone]
          · rw [countFail_append, countFail_append, hcf, htf]
            simp [countFail]
      | none =>
        dsimp only
        refine ⟨?_, ?_, ?_⟩
        · rw [countFail_append, countDone_append, hcf, hcd]
          simp [countFail, countDone]
        · intro hok
          cases hok
        · intro e2 he2
          cases he2
          refine ⟨?_, ?_, fun _ => by simp, fun hne => absurd he hne⟩
          · rw [countDone_append, hcd]
            simp [countDone]
          · rw [countFail_append, hcf]
            simp [countFail]
    · rw [if_neg he]
      refine ⟨?_, ?_, ?_⟩
      · rw [countFail_append, countDone_append, countFail_append,
          countDone_append, hcf, hcd]
        simp [_request_cancel, countFail, countDone]
      · intro hok
        cases hok
      · intro e2 he2
        cases he2
        refine ⟨?_, ?_, fun habs => absurd habs he, fun _ => ⟨?_, ?_, rfl⟩⟩
        · rw [countDone_append, countDone_append, hcd]
          simp [_request_cancel, countDone]
        · rw [countFail_append, countFail_append, hcf]
          simp [_request_cancel, countFail]
        · simp
        · simp [_request_cancel, createFuture]

/-- A codec whose encoder always raises (token exception 7). -/
def failingCodec : Codec := ⟨23, true, fun _ => .error (.otherError 7)⟩

/-- C5 witness: a binary-records COPY IN whose first encode raises sends
exactly one CopyFail with `str(e)` as the reason, requests a side-channel
cancel and re-raises; derived from `c5_copy_in_fail`. -/
theorem c5_witness :
    Ev.copyFailMsg (pyStr (PyErr.otherError 7))
      ∈ (copyInBody baseState (CopyInput.records [failingCodec] [[5]]) 0).1
    ∧ Ev.cancelCurrentCommand 1
      ∈ (copyInBody baseState (CopyInput.records [failingCodec] [[5]]) 0).1
    ∧ (copyInBody baseState (CopyInput.records [failingCodec] [[5]]) 0).2.2
      = .raised (.otherError 7) := by
  have h := (c5_copy_in_fail baseState
    (CopyInput.records [failingCodec] [[5]]) 0).2.2 (.otherError 7) (by rfl)
  have h4 := h.2.2.2 (by decide)
  exact ⟨h4.1, h4.2.1, h4.2.2⟩

/-- When the records loop completes without an exception, its trace is a run
of gate-awaited flushes of full (≥ threshold) buffers, and the flushed bytes
followed by the leftover buffer are exactly the initial buffer followed by
the int16 column-count framing and encoded columns of each row in order; the
leftover stays below the threshold. -/
theorem recordsLoop_ok_shape (codecs : List Codec) (n : Nat)
    (rows : List (List Nat)) :
    ∀ (wbuf : List Nat) (tr : List Ev) (fw : List Nat),
      wbuf.length < copyBufferSize →
      recordsLoop codecs n rows wbuf = (tr, .ok fw) →
      ∃ bufs : List (List Nat),
        tr = (bufs.map (fun b => [Ev.awaitWritingAllowed, Ev.copyDataMsg b])).flatten
        ∧ (∀ b ∈ bufs, copyBufferSize ≤ b.length)
        ∧ bufs.flatten ++ fw
            = wbuf ++ (rows.map (fun row => int16be (Int.ofNat n)
                ++ ((encodeCols codecs row).toOption.getD []))).flatten
        ∧ fw.length < copyBufferSize := by
  induction rows with
  | nil =>
    intro wbuf tr fw hlen h
    unfold recordsLoop at h
    cases h
    exact ⟨[], rfl, by simp, by simp, hlen⟩
  | cons row rows ih =>
    intro wbuf tr fw hlen h
    unfold recordsLoop at h
    cases hE : encodeCols codecs row with
    | error e =>
      rw [hE] at h
      exact absurd (congrArg Prod.snd h) (by simp)
    | ok bytes =>
      rw [hE] at h
      dsimp only at h
      by_cases hL : copyBufferSize
          ≤ (wbuf ++ int16be (Int.ofNat n) ++ bytes).length
      · rw [if_pos hL] at h
        have h2 : (recordsLoop codecs n rows []).2 = .ok fw := by
          simpa using congrArg Prod.snd h
        have h1 : tr = Ev.awaitWritingAllowed
            :: Ev.copyDataMsg (wbuf ++ int16be (Int.ofNat n) ++ bytes)
            :: (recordsLoop codecs n rows []).1 := by
          simpa using (congrArg Prod.fst h).symm
        have heq : recordsLoop codecs n rows []
            = ((recordsLoop codecs n rows []).1, .ok fw) := by
          rw [← h2]
        obtain ⟨bufs, hb1, hb2, hb3, hb4⟩ :=
          ih [] _ _ (by simp [copyBufferSize]) heq
        refine ⟨(wbuf ++ int16be (Int.ofNat n) ++ bytes) :: bufs, ?_, ?_, ?_,
          hb4⟩
        · rw [h1, hb1]
          simp
        · intro b hb
          rcases List.mem_cons.mp hb with hb | hb
          · rw [hb]
            exact hL
          · exact hb2 b hb
        · have hb3' : bufs.flatten ++ fw
              = (rows.map (fun row => int16be (Int.ofNat n)
                  ++ ((encodeCols codecs row).toOption.getD []))).flatten := by
            simpa using hb3
          simp only [List.flatten_cons, List.map_cons]
          rw [List.append_assoc, hb3']
          simp [hE, Except.toOption, List.append_assoc]
      · rw [if_neg hL] at h
        obtain ⟨bufs, hb1, hb2, hb3, hb4⟩ := ih _ _ _ (by omega) h
        refine ⟨bufs, hb1, hb2, ?_, hb4⟩
        rw [hb3]
        simp [hE, Except.toOption, List.append_assoc]

/-- C6: a successful binary-records COPY IN produces a byte stream that
begins with the canonical COPY signature, a zero int32 flags field and a zero
int32 header-extension length, frames each row as the int16 column count
followed by each column's codec-encoded bytes, and ends with the int16 -1
terminator; the stream is emitted as CopyData messages where every
threshold-triggered flush carries at least `copyBufferSize` bytes and is
preceded by a writing-allowed gate await, and the final (ungated) message
carries the sub-threshold remainder plus the terminator. -/
theorem c6_binary_copy_framing (codecs : List Codec) (rows : List (List Nat))
    (h : (copyInRecords codecs rows).2 = .ok ()) :
    ∃ (bufs : List (List Nat)) (final : List Nat),
      (copyInRecords codecs rows).1
        = (bufs.map (fun b => [Ev.awaitWritingAllowed, Ev.copyDataMsg b])).flatten
            ++ [Ev.copyDataMsg final]
      ∧ (∀ b ∈ bufs, copyBufferSize ≤ b.length)
      ∧ final.length < copyBufferSize + 2
      ∧ bufs.flatten ++ final
          = copySignature ++ int32be 0 ++ int32be 0
            ++ (rows.map (fun row => int16be (Int.ofNat codecs.length)
                ++ ((encodeCols codecs row).toOption.getD []))).flatten
            ++ int16be (-1) := by
  unfold copyInRecords at h ⊢
  cases hf : codecs.find? (fun c => !c.hasEncoder) with
  | some c =>
    rw [hf] at h
    simp at h
  | none =>
    simp only [hf] at h ⊢
    cases hr : (recordsLoop codecs codecs.length rows
        (copySignature ++ int32be 0 ++ int32be 0)).2 with
    | error e =>
      simp only [hr] at h
      simp at h
    | ok wbuf =>
      simp only [hr]
      have heq : recordsLoop codecs codecs.length rows
            (copySignature ++ int32be 0 ++ int32be 0)
          = ((recordsLoop codecs codecs.length rows
              (copySignature ++ int32be 0 ++ int32be 0)).1, .ok wbuf) := by
        rw [← hr]
      obtain ⟨bufs, hb1, hb2, hb3, hb4⟩ :=
        recordsLoop_ok_shape codecs codecs.length rows _ _ _ (by decide) heq
      refine ⟨bufs, wbuf ++ int16be (-1), ?_, hb2, ?_, ?_⟩
      · rw [hb1]
      · have hl : (int16be (-1)).length = 2 := by decide
        rw [List.length_append, hl]
        omega
      · rw [← List.append_assoc, hb3]

/-- An int-like codec used by the C6 witness: 4-byte length prefix then a
4-byte big-endian value. -/
def intishCodec : Codec := ⟨23, true, fun v => .ok [0, 0, 0, 4, 0, 0, 0, v % 256]⟩

/-- C6 witness: two one-column rows under `intishCodec` produce a single
ungated CopyData message: signature, zero flags, zero extension, two framed
rows, terminator.  `c6_binary_copy_framing` applies since the loop
succeeds. -/
theorem c6_witness :
    (copyInRecords [intishCodec] [[1], [2]]).1
      = [Ev.copyDataMsg
          [80, 71, 67, 79, 80, 89, 10, 255, 13, 10, 0,
           0, 0, 0, 0, 0, 0, 0, 0,
           0, 1, 0, 0, 0, 4, 0, 0, 0, 1,
           0, 1, 0, 0, 0, 4, 0, 0, 0, 2,
           255, 255]] := by
  have h := c6_binary_copy_framing [intishCodec] [[1], [2]] (by rfl)
  obtain ⟨bufs, final, h1, h2, h3, h4⟩ := h
  decide

end Asyncpg
